import Mathlib

/-!
Verification development for the astromail email-verifier core.

The definitions below are shallow embeddings of the TypeScript sources:
the cached SMTP prober (`SmtpCheckService.isEmailValid` and its helpers),
the active prober (`SmtpCheckService.performSmtpVerification` /
`verifyWithServer`), the reply chunk handlers, and the verification
pipeline (`EmailVerificationService.verifyEmail`).  Network reads are
modelled by oracle environments: each server interaction is a script
listing the complete lines the server sends in reply to the
corresponding read.
-/

deriving instance DecidableEq for Except

/-- JS `s.toLowerCase()` on ASCII data, at character level. -/
def jsToLower (s : String) : String :=
  String.mk (s.toList.map Char.toLower)

/-- JS `hay.includes(needle)`: substring containment test. -/
def jsIncludes (hay needle : String) : Bool :=
  hay.toList.tails.any (fun t => needle.toList.isPrefixOf t)

/-- JS `s.startsWith(p)`. -/
def jsStartsWith (s p : String) : Bool :=
  p.toList.isPrefixOf s.toList

/-- JS regex test `/^4\d\d/` used on RCPT replies in `verifyWithServer`. -/
def starts4xx (s : String) : Bool :=
  match s.toList with
  | c1 :: c2 :: c3 :: _ => c1 == '4' && c2.isDigit && c3.isDigit
  | _ => false

/-- JS regex test `/^\d{3}/` used by `readResponse` on the last complete line. -/
def startsDigit3 (s : String) : Bool :=
  match s.toList with
  | c1 :: c2 :: c3 :: _ => c1.isDigit && c2.isDigit && c3.isDigit
  | _ => false

/-- `parseInt(lastLine.substring(0, 3), 10)`, applied only to lines whose
first three characters are digits. -/
def parseCode3 (s : String) : Nat :=
  match s.toList with
  | c1 :: c2 :: c3 :: _ => (c1.toNat - 48) * 100 + (c2.toNat - 48) * 10 + (c3.toNat - 48)
  | _ => 0

/-!
Reply deframing (`smtp-check.service.ts`).

`handleData` (lines 335-340) accumulates raw data, splits on `"\r\n"`,
keeps the trailing incomplete segment in `rawData` and queues the
complete non-empty lines.  The post-TLS data handler installed by
`upgradeToTLS` (lines 474-477) splits each chunk independently and
queues every non-empty part, keeping no carry buffer.

`scanCRLF` embeds JS `buffer.split("\r\n")`, returning the list of
complete (separator-terminated) segments together with the trailing
remainder; the JS array of parts is the segments followed by the
remainder.
-/

def scanCRLF : List Char → List (List Char) × List Char
  | [] => ([], [])
  | [c] => ([], [c])
  | c1 :: c2 :: rest =>
    if c1 == '\r' && c2 == '\n' then
      let p := scanCRLF rest
      ([] :: p.1, p.2)
    else
      let p := scanCRLF (c2 :: rest)
      match p.1 with
      | [] => ([], c1 :: p.2)
      | l :: ls => ((c1 :: l) :: ls, p.2)

/-- Parser buffer state: the carried `rawData` remainder and the queue of
complete lines accumulated so far. -/
structure BufState where
  rawData : List Char
  queue : List (List Char)
deriving DecidableEq

/-- The `handleData` closure of `verifyWithServer` (plaintext socket):
append the chunk to `rawData`, split on `"\r\n"`, keep the trailing
element as the new `rawData`, push the non-empty complete lines. -/
def handleData (st : BufState) (chunk : List Char) : BufState :=
  let p := scanCRLF (st.rawData ++ chunk)
  { rawData := p.2, queue := st.queue ++ p.1.filter (fun l => !l.isEmpty) }

/-- The data handler installed after the TLS upgrade (`upgradeToTLS`):
split the chunk alone, push all non-empty parts, keep no remainder. -/
def handleDataTLS (queue : List (List Char)) (chunk : List Char) : List (List Char) :=
  let p := scanCRLF chunk
  queue ++ (p.1 ++ [p.2]).filter (fun l => !l.isEmpty)

/-- The fresh buffer a `verifyWithServer` call starts from. -/
def startBuf : BufState := { rawData := [], queue := [] }

/-!
The cached SMTP prober (`src/unnamed/part_001`, class `SmtpCheckService`
with `isEmailValid`).  A server interaction is an oracle script: each
field lists the complete lines the corresponding `readResponse` call
would accumulate before resolving; an empty list models a read that
never completes (response timeout) or a closed socket.
-/

/-- An SMTP reply as produced by `readResponse`: the parsed code and, as
`message`, the last complete line of the buffered data. -/
structure SmtpResponse where
  code : Nat
  message : String
deriving DecidableEq

/-- An MX record as returned by `dns.resolveMx`. -/
structure MxRecord where
  exchange : String
  priority : Nat
deriving DecidableEq

/-- `readResponse`: resolves once the last complete buffered line starts
with three digits, with that line as the message and its first three
digits as the code; otherwise the read times out. -/
def readResponse (lines : List String) : Except String SmtpResponse :=
  match lines.getLast? with
  | none => Except.error "Response timeout"
  | some last =>
    if startsDigit3 last then Except.ok { code := parseCode3 last, message := last }
    else Except.error "Response timeout"

/-- Oracle script for one MX host of the cached prober. -/
structure ServerScript where
  connectOk : Nat → Bool
  greeting : List String
  ehloReply : List String
  heloReply : List String
  tlsReply : List String
  tlsHandshakeOk : Bool
  secureEhloReply : List String
  mailFromReply : List String
  dummyRcptReply : List String
  realRcptReply : List String

/-- The fixed port list `SMTP_PORTS = [25, 587, 465]`. -/
def SMTP_PORTS : List Nat := [25, 587, 465]

/-- Port loop of `createConnection`: try each port in order, first
success wins; also returns the list of ports actually attempted. -/
def tryPorts (connectOk : Nat → Bool) : List Nat → Except String Nat × List Nat
  | [] => (Except.error "Failed to connect on any port", [])
  | p :: ps =>
    if connectOk p then (Except.ok p, [p])
    else
      let r := tryPorts connectOk ps
      (r.1, p :: r.2)

/-- `createConnection`: iterate `SMTP_PORTS`, return the first port that
connects, throw after exhausting all three. -/
def createConnection (connectOk : Nat → Bool) : Except String Nat × List Nat :=
  tryPorts connectOk SMTP_PORTS

/-- Entry of `responseCache`: the observed reply text (or the sentinel
`catch-all`) and the `Date.now()` at which it was stored. -/
structure CacheEntry where
  response : String
  timestamp : Nat
deriving DecidableEq

/-- The `responseCache` map, as an association list. -/
abbrev RespCache := List (String × CacheEntry)

/-- `Map.get`. -/
def cacheGet (c : RespCache) (k : String) : Option CacheEntry :=
  (c.find? (fun kv => kv.1 == k)).map (fun kv => kv.2)

/-- `Map.set`. -/
def cacheSet (c : RespCache) (k : String) (v : CacheEntry) : RespCache :=
  match c with
  | [] => [(k, v)]
  | kv :: rest => if kv.1 == k then (k, v) :: rest else kv :: cacheSet rest k v

/-- The cache key `` `${domain}_${mxServer}` ``. -/
def cacheKey (domain mxServer : String) : String := domain ++ "_" ++ mxServer

/-- `cacheTTL = 3600000` (1 hour in milliseconds). -/
def cacheTTL : Nat := 3600000

/-- The freshness test `Date.now() - cached.timestamp < this.cacheTTL`. -/
def isFresh (now : Nat) (e : CacheEntry) : Bool := now - e.timestamp < cacheTTL

/-- The default dummy local part `gibberishasdfasdf`. -/
def dummyUser : String := "gibberishasdfasdf"

/-- Observable side effects of the cached prober: the MX lookup, each
TCP connect attempt, and each RCPT actually written. -/
inductive Probe1Eff
  | dnsMx
  | connTry (host : String) (port : Nat)
  | dummyRcpt (addr : String)
  | realRcpt (addr : String)
deriving DecidableEq

/-- Outcome record `{ smtp, catchall }` of `isEmailValid`. -/
structure ProbeOutcome where
  smtp : Bool
  catchall : Bool
deriving DecidableEq

/-- Oracle environment for the cached prober. -/
structure Env1 where
  resolveMxResult : Except String (List MxRecord)
  script : String → ServerScript
  now : Nat

/-- Greeting, EHLO and HELO fallback (part_001 lines 184-195): the
greeting must be 220; a non-250 EHLO falls back to HELO, which must be
250.  Returns the EHLO response, whose message is consulted later for
the STARTTLS capability even on the HELO path. -/
def stage1 (s : ServerScript) : Except String SmtpResponse :=
  match readResponse s.greeting with
  | Except.error e => Except.error e
  | Except.ok g =>
    if g.code ≠ 220 then Except.error "Unexpected greeting"
    else
      match readResponse s.ehloReply with
      | Except.error e => Except.error e
      | Except.ok eh =>
        if eh.code = 250 then Except.ok eh
        else
          match readResponse s.heloReply with
          | Except.error e => Except.error e
          | Except.ok h => if h.code = 250 then Except.ok eh else Except.error "HELO failed"

/-- STARTTLS step (part_001 lines 197-212): attempted when the EHLO
message mentions STARTTLS; a 220 reply triggers the TLS upgrade and a
mandatory post-upgrade EHLO, any other reply proceeds in plaintext. -/
def stage2 (s : ServerScript) (eh : SmtpResponse) : Except String Unit :=
  if jsIncludes eh.message "STARTTLS" then
    match readResponse s.tlsReply with
    | Except.error e => Except.error e
    | Except.ok st =>
      if st.code = 220 then
        if s.tlsHandshakeOk then
          match readResponse s.secureEhloReply with
          | Except.error e => Except.error e
          | Except.ok se =>
            if se.code = 250 then Except.ok () else Except.error "EHLO failed after STARTTLS"
        else Except.error "TLS upgrade failed"
      else Except.ok ()
  else Except.ok ()

/-- MAIL FROM step (part_001 lines 214-220): must be 250. -/
def stage3 (s : ServerScript) : Except String Unit :=
  match readResponse s.mailFromReply with
  | Except.error e => Except.error e
  | Except.ok f => if f.code = 250 then Except.ok () else Except.error "MAIL FROM failed"

/-- The conversation up to (excluding) the RCPT stage. -/
def preRcpt (s : ServerScript) : Except String Unit :=
  match stage1 s with
  | Except.error e => Except.error e
  | Except.ok eh =>
    match stage2 s eh with
    | Except.error e => Except.error e
    | Except.ok _ => stage3 s

/-- RCPT stage (part_001 lines 222-256): when no cache entry exists (of
any age) the dummy RCPT runs first — a 250 stores the `catch-all`
sentinel and short-circuits, anything else stores the reply text — then
the real RCPT decides by text comparison against a (possibly stale)
cached entry, or by `code === 250` otherwise.  Returns the outcome, the
cache entry written (if any), and the RCPT effects. -/
def stage4 (s : ServerScript) (cached : Option CacheEntry) (now : Nat)
    (email dummyEmail : String) :
    Except String ProbeOutcome × Option CacheEntry × List Probe1Eff :=
  match cached with
  | none =>
    match readResponse s.dummyRcptReply with
    | Except.error e => (Except.error e, none, [Probe1Eff.dummyRcpt dummyEmail])
    | Except.ok dt =>
      if dt.code = 250 then
        (Except.ok { smtp := true, catchall := true },
         some { response := "catch-all", timestamp := now },
         [Probe1Eff.dummyRcpt dummyEmail])
      else
        let upd := some { response := dt.message, timestamp := now }
        match readResponse s.realRcptReply with
        | Except.error e =>
          (Except.error e, upd, [Probe1Eff.dummyRcpt dummyEmail, Probe1Eff.realRcpt email])
        | Except.ok r =>
          (Except.ok { smtp := r.code == 250, catchall := false }, upd,
           [Probe1Eff.dummyRcpt dummyEmail, Probe1Eff.realRcpt email])
  | some e =>
    match readResponse s.realRcptReply with
    | Except.error er => (Except.error er, none, [Probe1Eff.realRcpt email])
    | Except.ok r =>
      if e.response == "catch-all" then
        (Except.ok { smtp := r.code == 250, catchall := false }, none, [Probe1Eff.realRcpt email])
      else
        (Except.ok { smtp := r.message != e.response, catchall := false }, none,
         [Probe1Eff.realRcpt email])

/-- The full conversation on an established connection. -/
def conversation (s : ServerScript) (cached : Option CacheEntry) (now : Nat)
    (email dummyEmail : String) :
    Except String ProbeOutcome × Option CacheEntry × List Probe1Eff :=
  match preRcpt s with
  | Except.error e => (Except.error e, none, [])
  | Except.ok _ => stage4 s cached now email dummyEmail

/-- One iteration of the MX loop of `isEmailValid` (the try block,
part_001 lines 172-272): a fresh `catch-all` cache entry short-circuits
before connecting; otherwise the connection and conversation run, any
thrown error is caught (`none`) and the loop continues; cache writes
performed before an error persist. -/
def attemptMx (env : Env1) (cache : RespCache) (domain localPart : String)
    (mx : MxRecord) : Option ProbeOutcome × RespCache × List Probe1Eff :=
  let key := cacheKey domain mx.exchange
  let cached := cacheGet cache key
  let s := env.script mx.exchange
  let freshCatchAll :=
    match cached with
    | some e => isFresh env.now e && (e.response == "catch-all")
    | none => false
  if freshCatchAll then (some { smtp := true, catchall := true }, cache, [])
  else
    let conn := createConnection s.connectOk
    let connEffs := conn.2.map (Probe1Eff.connTry mx.exchange)
    match conn.1 with
    | Except.error _ => (none, cache, connEffs)
    | Except.ok _ =>
      let r := conversation s cached env.now (localPart ++ "@" ++ domain)
        (dummyUser ++ "@" ++ domain)
      let cache2 :=
        match r.2.1 with
        | some entry => cacheSet cache key entry
        | none => cache
      match r.1 with
      | Except.ok out => (some out, cache2, connEffs ++ r.2.2)
      | Except.error _ => (none, cache2, connEffs ++ r.2.2)

/-- Stable insertion used to model `mxRecords.sort((a, b) => a.priority - b.priority)`. -/
def insertMx (x : MxRecord) : List MxRecord → List MxRecord
  | [] => [x]
  | y :: ys => if y.priority ≤ x.priority then y :: insertMx x ys else x :: y :: ys

/-- Stable sort by ascending priority (the JS `Array.prototype.sort` is
stable with this comparator). -/
def sortByPrio (l : List MxRecord) : List MxRecord :=
  l.foldl (fun acc x => insertMx x acc) []

/-- The MX loop of `isEmailValid`: first decisive attempt returns,
caught attempts continue threading the (possibly updated) cache;
exhaustion yields `{ smtp: false, catchall: false }`. -/
def probeLoop (env : Env1) (domain localPart : String) :
    List MxRecord → RespCache → ProbeOutcome × RespCache × List Probe1Eff
  | [], cache => ({ smtp := false, catchall := false }, cache, [])
  | mx :: rest, cache =>
    let a := attemptMx env cache domain localPart mx
    match a.1 with
    | some out => (out, a.2.1, a.2.2)
    | none =>
      let r := probeLoop env domain localPart rest a.2.1
      (r.1, r.2.1, a.2.2 ++ r.2.2)

/-- `isEmailValid(domain, localPart)` of the cached prober: empty local
part or domain returns immediately; `resolveMx` runs outside the try
block so its rejection propagates to the caller; an empty MX list
returns `{ smtp: false, catchall: false }`. -/
def isEmailValid (env : Env1) (cache : RespCache) (domain localPart : String) :
    Except String ProbeOutcome × RespCache × List Probe1Eff :=
  if localPart == "" || domain == "" then
    (Except.ok { smtp := false, catchall := false }, cache, [])
  else
    match env.resolveMxResult with
    | Except.error e => (Except.error e, cache, [Probe1Eff.dnsMx])
    | Except.ok mxs =>
      if mxs.isEmpty then
        (Except.ok { smtp := false, catchall := false }, cache, [Probe1Eff.dnsMx])
      else
        let r := probeLoop env domain localPart (sortByPrio mxs) cache
        (Except.ok r.1, r.2.1, Probe1Eff.dnsMx :: r.2.2)

/-!
The active SMTP prober (`smtp-check.service.ts` lines 251-537:
`verifyWithServer` and `performSmtpVerification`).  The line queue is
modelled at reply granularity: `sendCommand` clears the queue, writes,
and takes the first line of the reply; the remaining lines stay queued
until the next command clears them (the EHLO handler inspects them for
the STARTTLS capability before clearing).
-/

/-- Commands written by `verifyWithServer`, in order of emission. -/
inductive SmtpCmd
  | ehlo
  | tlsStart
  | mailFrom
  | rcpt (addr : String)
  | quit
deriving DecidableEq

/-- Oracle script for one MX host / local part of the active prober. -/
structure ServerScript2 where
  greeting : List String
  ehlo1 : List String
  tlsReply : List String
  tlsHandshakeOk : Bool
  ehlo2 : List String
  mailFromReply : List String
  rcptReply : List String
  quitReply : List String

/-- `waitForLine`: the first queued line, or a rejection when the socket
closes with nothing queued. -/
def firstLine (reply : List String) : Except String String :=
  match reply with
  | [] => Except.error "Socket closed before receiving data."
  | l :: _ => Except.ok l

/-- The conversation from the second EHLO onwards (lines 384-405):
EHLO must mention 250, MAIL FROM must start with 250, then RCPT and a
mandatory QUIT whose failed read also rejects; the RCPT line decides
`250` / `550` / `4xx` / unrecognized. -/
def afterEhloStage (s : ServerScript2) (localPart domain : String) :
    Except String Bool × List SmtpCmd :=
  match firstLine s.ehlo2 with
  | Except.error e => (Except.error e, [SmtpCmd.ehlo])
  | Except.ok e2 =>
    if !jsIncludes e2 "250" then
      (Except.error "EHLO after STARTTLS not accepted", [SmtpCmd.ehlo])
    else
      match firstLine s.mailFromReply with
      | Except.error e => (Except.error e, [SmtpCmd.ehlo, SmtpCmd.mailFrom])
      | Except.ok mf =>
        if !jsStartsWith mf "250" then
          (Except.error "MAIL FROM rejected", [SmtpCmd.ehlo, SmtpCmd.mailFrom])
        else
          match firstLine s.rcptReply with
          | Except.error e =>
            (Except.error e,
             [SmtpCmd.ehlo, SmtpCmd.mailFrom, SmtpCmd.rcpt (localPart ++ "@" ++ domain)])
          | Except.ok r =>
            let cmds := [SmtpCmd.ehlo, SmtpCmd.mailFrom,
              SmtpCmd.rcpt (localPart ++ "@" ++ domain), SmtpCmd.quit]
            match firstLine s.quitReply with
            | Except.error e => (Except.error e, cmds)
            | Except.ok _ =>
              if jsStartsWith r "250" then (Except.ok true, cmds)
              else if jsStartsWith r "550" then (Except.ok false, cmds)
              else if starts4xx r then (Except.error "Temporary error (4xx)", cmds)
              else (Except.error "Unrecognized response", cmds)

/-- The whole conversation of `verifyWithServer` (lines 354-412): 220
greeting, first EHLO (its reply's first line is consumed as the
response; the remaining queued lines are scanned for STARTTLS), the
optional STARTTLS exchange and TLS upgrade, then `afterEhloStage`. -/
def verifyConv (s : ServerScript2) (localPart domain : String) :
    Except String Bool × List SmtpCmd :=
  match firstLine s.greeting with
  | Except.error e => (Except.error e, [])
  | Except.ok g =>
    if !jsStartsWith g "220" then (Except.error "Unexpected greeting", [])
    else
      match firstLine s.ehlo1 with
      | Except.error e => (Except.error e, [SmtpCmd.ehlo])
      | Except.ok e1 =>
        if !jsIncludes e1 "250" then (Except.error "EHLO not accepted", [SmtpCmd.ehlo])
        else
          let supports := (s.ehlo1.drop 1).any (fun l => jsIncludes l "STARTTLS")
          if supports then
            match firstLine s.tlsReply with
            | Except.error e => (Except.error e, [SmtpCmd.ehlo, SmtpCmd.tlsStart])
            | Except.ok st =>
              if jsStartsWith st "220" then
                if s.tlsHandshakeOk then
                  let t := afterEhloStage s localPart domain
                  (t.1, [SmtpCmd.ehlo, SmtpCmd.tlsStart] ++ t.2)
                else (Except.error "TLS handshake failed", [SmtpCmd.ehlo, SmtpCmd.tlsStart])
              else
                let t := afterEhloStage s localPart domain
                (t.1, [SmtpCmd.ehlo, SmtpCmd.tlsStart] ++ t.2)
          else
            let t := afterEhloStage s localPart domain
            (t.1, [SmtpCmd.ehlo] ++ t.2)

/-- Oracle environment for the active prober: MX resolution, per-host
per-port connectability, and the script of each (host, local part). -/
structure Env2 where
  resolveMxResult : Except String (List MxRecord)
  connects : String → Nat → Bool
  script : String → String → ServerScript2

/-- `verifyWithServer` (lines 299-449): `const port = 25` — a single
connection attempt on port 25; connection failure rejects.  Returns the
result, the list of ports attempted, and the commands written. -/
def verifyWithServer (env : Env2) (mxHost domain localPart : String) :
    Except String Bool × List Nat × List SmtpCmd :=
  if env.connects mxHost 25 then
    let t := verifyConv (env.script mxHost localPart) localPart domain
    (t.1, [25], t.2)
  else (Except.error "connect ECONNREFUSED", [25], [])

/-- Whether a given MX host accepted the address (the `accepted` test of
the `performSmtpVerification` loop). -/
def mxAccepted (env : Env2) (domain localPart : String) (mx : MxRecord) : Bool :=
  match (verifyWithServer env mx.exchange domain localPart).1 with
  | Except.ok true => true
  | _ => false

/-- The MX loop of `performSmtpVerification` (lines 511-528): only
`accepted === true` returns; a `false` result and a rejection both fall
through to the next MX host. -/
def performLoop (env : Env2) (domain localPart : String) : List MxRecord → Bool
  | [] => false
  | mx :: rest =>
    match (verifyWithServer env mx.exchange domain localPart).1 with
    | Except.ok true => true
    | _ => performLoop env domain localPart rest

/-- `performSmtpVerification(domain, localPart)` (lines 496-537): the
whole body sits in a try/catch returning `false`, so the caller always
receives a boolean. -/
def performSmtpVerification (env : Env2) (domain localPart : String) : Except String Bool :=
  Except.ok
    (match env.resolveMxResult with
     | Except.error _ => false
     | Except.ok mxs =>
       if mxs.isEmpty then false
       else performLoop env domain localPart (sortByPrio mxs))

/-!
The verification pipeline (`email-verification.service.ts` lines 15-143,
the active `EmailVerificationService`), its collaborators
(`RoleBasedService`, `CatchAllService`, the well-known-provider set) and
the `ScoringService.calculateScore` found in `scoring.service.ts`.
External collaborators whose implementation is not part of the core
(the punycode library, the disposable list, the DNS-backed domain and
MX checks) appear as oracle fields of `PipeEnv`.
-/

/-- The boolean check record of `VerificationResult`. -/
structure Checks where
  formatValid : Bool
  disposable : Bool
  domainExists : Bool
  hasMxRecord : Bool
  smtpValid : Bool
  catchAll : Bool
deriving DecidableEq

/-- The result assembled by `verifyEmail`. -/
structure VResult where
  isValid : Bool
  checks : Checks
  score : Int
  reason : Option String
deriving DecidableEq

/-- `ScoringService.calculateScore` (from `scoring.service.ts`): base
weights for each passed check, added to the accumulated adjustments,
clamped to [0, 100]; validity needs score ≥ 70 plus format, non-
disposable, MX and SMTP. -/
def calculateScore (r : VResult) : VResult :=
  let base : Int :=
    (if r.checks.formatValid then 20 else 0) +
    (if !r.checks.disposable then 20 else 0) +
    (if r.checks.domainExists then 20 else 0) +
    (if r.checks.hasMxRecord then 20 else 0) +
    (if r.checks.smtpValid then 20 else 0) +
    (if !r.checks.catchAll then 10 else 0)
  let sc : Int := max 0 (min 100 (base + r.score))
  { r with
    score := sc,
    isValid := decide (sc ≥ 70) && r.checks.formatValid && !r.checks.disposable &&
      r.checks.hasMxRecord && r.checks.smtpValid }

/-- Modelled from the spec: `FormatValidatorService.isValidFormat`
(`format-validator.service.ts` is not among the sources).  Spec 4.1:
Valid only when exactly one `@` separates a non-empty local part from a
domain containing at least one `.`, with no whitespace, local ≤ 64 and
domain ≤ 253 characters. -/
def isValidFormat (email : String) : Bool :=
  let cs := email.toList
  if cs.countP (fun c => c == '@') ≠ 1 then false
  else
    let localCs := cs.takeWhile (fun c => c != '@')
    let domCs := (cs.dropWhile (fun c => c != '@')).drop 1
    decide (1 ≤ localCs.length) && decide (localCs.length ≤ 64) &&
    decide (1 ≤ domCs.length) && decide (domCs.length ≤ 253) &&
    domCs.contains '.' && !(cs.any Char.isWhitespace)

/-- JS `email.split('@')` at character level. -/
def splitAtChar (c : Char) : List Char → List (List Char)
  | [] => [[]]
  | x :: xs =>
    if x == c then [] :: splitAtChar c xs
    else
      match splitAtChar c xs with
      | [] => [[x]]
      | l :: ls => (x :: l) :: ls

/-- The destructuring `const [localPart, domain] = email.split('@')`. -/
def splitEmail (email : String) : String × String :=
  let parts := splitAtChar '@' email.toList
  (String.mk (parts.headD []), String.mk ((parts.drop 1).headD []))

/-- The `roleBasedEmails` set of `RoleBasedService`. -/
def roleBasedEmails : List String :=
  ["admin", "administrator", "webmaster", "hostmaster", "postmaster", "info",
   "support", "sales", "marketing", "contact", "help", "abuse", "noreply",
   "no-reply", "mail", "email", "office"]

/-- `RoleBasedService.isRoleBasedEmail`. -/
def isRoleBasedEmail (localPart : String) : Bool :=
  roleBasedEmails.contains (jsToLower localPart)

/-- The `wellKnownDomains` set of `EmailVerificationService`. -/
def wellKnownDomains : List String :=
  ["gmail.com", "yahoo.com", "hotmail.com", "outlook.com", "aol.com",
   "icloud.com", "protonmail.com", "proton.me", "zoho.com", "mail.com",
   "gmx.com", "yandex.com", "microsoft.com", "googlemail.com", "live.com"]

/-- JS `s.endsWith(suf)`. -/
def jsEndsWith (s suf : String) : Bool :=
  suf.toList.isSuffixOf s.toList

/-- `EmailVerificationService.isWellKnownProvider`: exact membership of
the lowercased domain, or suffix match on `"." + known`. -/
def isWellKnownProvider (domain : String) : Bool :=
  let base := jsToLower domain
  wellKnownDomains.contains base ||
    wellKnownDomains.any (fun known => jsEndsWith base ("." ++ known))

/-- Oracle environment of the pipeline.  `toASCII` stands for the
external `punycode` library; `isDisposable`, `domainExists` and `hasMx`
stand for the outcomes of `DisposableDomainService`,
`DomainCheckService` and `MxCheckService` (the first and last have no
source file; the middle one is a thin DNS wrapper); `randomLocal` is
the random local part drawn by `CatchAllService`. -/
structure PipeEnv where
  toASCII : String → String
  isDisposable : String → Bool
  domainExists : String → Bool
  hasMx : String → Bool
  smtp : Env2
  randomLocal : String

/-- `CatchAllService.isCatchAll`: probe a random local part through
`performSmtpVerification`; any rejection is caught and yields false. -/
def isCatchAll (env : PipeEnv) (domain : String) : Bool :=
  match performSmtpVerification env.smtp domain env.randomLocal with
  | Except.ok b => b
  | Except.error _ => false

/-- Network operations observable at pipeline level. -/
inductive NetEff
  | dnsDomainCheck
  | dnsMxCheck
  | smtpProbe (domain localPart : String)
deriving DecidableEq

/-- The empty result `verifyEmail` starts from. -/
def emptyResult : VResult :=
  { isValid := false,
    checks := { formatValid := false, disposable := false, domainExists := false,
                hasMxRecord := false, smtpValid := false, catchAll := false },
    score := 0, reason := none }

/-- `EmailVerificationService.verifyEmail` (the active implementation):
format gate, punycode normalization, role-based score penalty,
disposable gate, domain-existence gate, MX gate, well-known shortcut,
SMTP probe and unconditional catch-all detection, final scoring.
Returns the scored result and the trace of network operations. -/
def verifyEmail (env : PipeEnv) (email : String) : VResult × List NetEff :=
  let r0 := emptyResult
  if !isValidFormat email then
    (calculateScore { r0 with reason := some "Invalid email format" }, [])
  else
    let r1 := { r0 with checks := { r0.checks with formatValid := true } }
    let lp := (splitEmail email).1
    let dom := (splitEmail email).2
    let punyDomain := env.toASCII dom
    let r2 := if isRoleBasedEmail lp then { r1 with score := r1.score - 20 } else r1
    if env.isDisposable punyDomain then
      (calculateScore { r2 with
        checks := { r2.checks with disposable := true },
        reason := some "Disposable email domain" }, [])
    else
      if !env.domainExists punyDomain then
        (calculateScore { r2 with reason := some "Domain does not exist" },
         [NetEff.dnsDomainCheck])
      else
        let r4 := { r2 with checks := { r2.checks with domainExists := true } }
        if !env.hasMx punyDomain then
          (calculateScore { r4 with reason := some "No MX records found" },
           [NetEff.dnsDomainCheck, NetEff.dnsMxCheck])
        else
          let r5 := { r4 with checks := { r4.checks with hasMxRecord := true } }
          if isWellKnownProvider punyDomain then
            (calculateScore { r5 with
              checks := { r5.checks with smtpValid := true },
              score := r5.score + 30 },
             [NetEff.dnsDomainCheck, NetEff.dnsMxCheck])
          else
            let sv :=
              match performSmtpVerification env.smtp punyDomain lp with
              | Except.ok b => b
              | Except.error _ => false
            let ca := isCatchAll env punyDomain
            let r6 := { r5 with
              checks := { r5.checks with smtpValid := sv, catchAll := ca },
              score := if ca then r5.score - 15 else r5.score }
            (calculateScore r6,
             [NetEff.dnsDomainCheck, NetEff.dnsMxCheck,
              NetEff.smtpProbe punyDomain lp, NetEff.smtpProbe punyDomain env.randomLocal])

/-- The three values of the `emailStatus` response field. -/
inductive EmailStatus
  | statusValid
  | statusInvalid
  | statusCatchAll
deriving DecidableEq

/-- Modelled from the spec: the `emailStatus` derivation of the response
schema (spec 4.7) — no code under src computes it, the active service
returns the boolean `checks` record — following the spec decision
order: any failed gate is Invalid, then `Catch-All if catchAll else
(Valid if smtpValid else Invalid)`. -/
def emailStatusOf (r : VResult) : EmailStatus :=
  if !r.checks.formatValid then EmailStatus.statusInvalid
  else if r.checks.disposable then EmailStatus.statusInvalid
  else if !r.checks.domainExists then EmailStatus.statusInvalid
  else if !r.checks.hasMxRecord then EmailStatus.statusInvalid
  else if r.checks.catchAll then EmailStatus.statusCatchAll
  else if r.checks.smtpValid then EmailStatus.statusValid
  else EmailStatus.statusInvalid

/-!
Concrete environments used to evaluate the model at specific inputs.
-/

/-- A cached-prober script none of whose reads ever completes and whose
connections all fail. -/
def emptyScript : ServerScript :=
  { connectOk := fun _ => false, greeting := [], ehloReply := [], heloReply := [],
    tlsReply := [], tlsHandshakeOk := false, secureEhloReply := [], mailFromReply := [],
    dummyRcptReply := [], realRcptReply := [] }

/-- An active-prober script none of whose reads ever completes. -/
def emptyScript2 : ServerScript2 :=
  { greeting := [], ehlo1 := [], tlsReply := [], tlsHandshakeOk := false, ehlo2 := [],
    mailFromReply := [], rcptReply := [], quitReply := [] }

/-- A well-behaved single-line active-prober script with the given RCPT
reply: 220 greeting, plain 250 EHLO (no STARTTLS), 250 MAIL FROM, 221 QUIT. -/
def plainScript (rcptLine : String) : ServerScript2 :=
  { greeting := ["220 mx"], ehlo1 := ["250 mx"], tlsReply := [], tlsHandshakeOk := true,
    ehlo2 := ["250 mx"], mailFromReply := ["250 ok"], rcptReply := [rcptLine],
    quitReply := ["221 bye"] }

/-- Environment where MX resolution rejects (e.g. ENODATA). -/
def c1Env : Env1 :=
  { resolveMxResult := Except.error "queryMx ENODATA", script := fun _ => emptyScript,
    now := 0 }

/-- Environment with an empty MX list. -/
def c1wEnv : Env1 :=
  { resolveMxResult := Except.ok [], script := fun _ => emptyScript, now := 0 }

/-- An inert active-prober environment. -/
def inertEnv2 : Env2 :=
  { resolveMxResult := Except.error "noenv", connects := fun _ _ => false,
    script := fun _ _ => emptyScript2 }

/-- Two MX hosts: the first rejects the recipient with 550, the second
accepts it with 250. -/
def c2Env : Env2 :=
  { resolveMxResult := Except.ok [{ exchange := "mx1.example.com", priority := 10 },
                                  { exchange := "mx2.example.com", priority := 20 }],
    connects := fun _ _ => true,
    script := fun mx _ =>
      if mx == "mx1.example.com" then plainScript "550 no such user"
      else plainScript "250 ok" }

/-- One MX host reachable on port 587 but not on port 25, which would
accept the recipient. -/
def c3Env : Env2 :=
  { resolveMxResult := Except.ok [{ exchange := "mx.example.com", priority := 10 }],
    connects := fun _ p => p == 587,
    script := fun _ _ => plainScript "250 ok" }

/-- Environment observing a fresh cache (stored at 500, read at 1000). -/
def c4wEnv : Env1 :=
  { resolveMxResult := Except.ok [], script := fun _ => emptyScript, now := 1000 }

/-- Cache holding a fresh `catch-all` entry for (example.com, mx.example.com). -/
def c4wCache : RespCache :=
  [(cacheKey "example.com" "mx.example.com", { response := "catch-all", timestamp := 500 })]

/-- Cached-prober script for the stale-cache run: the dummy RCPT would
answer 250 (catch-all), the real RCPT answers the same 550 text that is
sitting, expired, in the cache. -/
def c5Script : ServerScript :=
  { connectOk := fun p => p == 25, greeting := ["220 mx"], ehloReply := ["250 mx"],
    heloReply := [], tlsReply := [], tlsHandshakeOk := true, secureEhloReply := [],
    mailFromReply := ["250 ok"], dummyRcptReply := ["250 would accept anything"],
    realRcptReply := ["550 no such user"] }

/-- Environment whose clock is two hours past the cache write. -/
def c5Env : Env1 :=
  { resolveMxResult := Except.ok [{ exchange := "mx.example.com", priority := 10 }],
    script := fun _ => c5Script, now := 7200000 }

/-- Cache entry written at time 0, hence expired at time 7200000. -/
def c5Cache : RespCache :=
  [("example.com_mx.example.com", { response := "550 no such user", timestamp := 0 })]

/-- Pipeline environment over a domain whose MX rejects the real local
part `bob` with 550 but accepts any other (random) local part. -/
def c6Env : PipeEnv :=
  { toASCII := fun s => s, isDisposable := fun _ => false, domainExists := fun _ => true,
    hasMx := fun _ => true,
    smtp := { resolveMxResult := Except.ok [{ exchange := "mx.corp.example", priority := 10 }],
              connects := fun _ _ => true,
              script := fun _ lp =>
                if lp == "bob" then plainScript "550 user suspended"
                else plainScript "250 ok" },
    randomLocal := "zzzrandomzzz" }

/-- Active-prober script advertising STARTTLS only on the first line of
the multi-line EHLO reply. -/
def c7Script : ServerScript2 :=
  { greeting := ["220 mx"], ehlo1 := ["250-STARTTLS", "250 HELP"], tlsReply := ["220 go"],
    tlsHandshakeOk := true, ehlo2 := ["250 ok"], mailFromReply := ["250 ok"],
    rcptReply := ["250 ok"], quitReply := ["221 bye"] }

/-- Active-prober script advertising STARTTLS on the second line of the
multi-line EHLO reply. -/
def c7wScript : ServerScript2 :=
  { greeting := ["220 mx"], ehlo1 := ["250-corp", "250-STARTTLS", "250 HELP"],
    tlsReply := ["220 go"], tlsHandshakeOk := true, ehlo2 := ["250 ok"],
    mailFromReply := ["250 ok"], rcptReply := ["250 ok"], quitReply := ["221 bye"] }

/-- An inert pipeline environment. -/
def c9Env : PipeEnv :=
  { toASCII := fun s => s, isDisposable := fun _ => false, domainExists := fun _ => false,
    hasMx := fun _ => false, smtp := inertEnv2, randomLocal := "x" }

/-- Cached-prober environment whose MX resolution is never consulted. -/
def c10Env : Env1 :=
  { resolveMxResult := Except.error "unused", script := fun _ => emptyScript, now := 0 }
theorem scanCRLF_lines_nil : ∀ s : List Char, (scanCRLF s).1 = [] → (scanCRLF s).2 = s
  | [] => fun _ => rfl
  | [_] => fun _ => rfl
  | c1 :: c2 :: rest => by
    intro h
    by_cases hc : (c1 == '\r' && c2 == '\n') = true
    · simp [scanCRLF, hc] at h
    · have ih := scanCRLF_lines_nil (c2 :: rest)
      rcases hp : (scanCRLF (c2 :: rest)).1 with _ | ⟨l, ls⟩
      · have h2 := ih hp
        simp [scanCRLF, hc, hp, h2]
      · simp [scanCRLF, hc, hp] at h

theorem scanCRLF_cons2_pos (c1 c2 : Char) (r : List Char)
    (hc : (c1 == '\r' && c2 == '\n') = true) :
    scanCRLF (c1 :: c2 :: r) = ([] :: (scanCRLF r).1, (scanCRLF r).2) := by
  simp [scanCRLF, hc]

theorem scanCRLF_cons2_neg (c1 c2 : Char) (r : List Char)
    (hc : (c1 == '\r' && c2 == '\n') = false) :
    scanCRLF (c1 :: c2 :: r) =
      (match (scanCRLF (c2 :: r)).1 with
       | [] => ([], c1 :: (scanCRLF (c2 :: r)).2)
       | l :: ls => ((c1 :: l) :: ls, (scanCRLF (c2 :: r)).2)) := by
  simp [scanCRLF, hc]

theorem scanCRLF_append : ∀ x y : List Char,
    scanCRLF (x ++ y) =
      ((scanCRLF x).1 ++ (scanCRLF ((scanCRLF x).2 ++ y)).1,
       (scanCRLF ((scanCRLF x).2 ++ y)).2)
  | [], y => by simp [scanCRLF]
  | [c], y => by simp [scanCRLF]
  | c1 :: c2 :: rest, y => by
    cases hc : (c1 == '\r' && c2 == '\n')
    · rcases hp : (scanCRLF (c2 :: rest)).1 with _ | ⟨l, ls⟩
      · have h2 := scanCRLF_lines_nil (c2 :: rest) hp
        have hx : scanCRLF (c1 :: c2 :: rest) = ([], c1 :: c2 :: rest) := by
          rw [scanCRLF_cons2_neg c1 c2 rest hc, hp, h2]
        rw [hx]
        simp
      · have ih := scanCRLF_append (c2 :: rest) y
        have hx : scanCRLF (c1 :: c2 :: rest) = ((c1 :: l) :: ls, (scanCRLF (c2 :: rest)).2) := by
          rw [scanCRLF_cons2_neg c1 c2 rest hc, hp]
        have hy : scanCRLF ((c1 :: c2 :: rest) ++ y) =
            ((c1 :: l) :: (ls ++ (scanCRLF ((scanCRLF (c2 :: rest)).2 ++ y)).1),
             (scanCRLF ((scanCRLF (c2 :: rest)).2 ++ y)).2) := by
          rw [show (c1 :: c2 :: rest) ++ y = c1 :: c2 :: (rest ++ y) from rfl]

          rw [scanCRLF_cons2_neg c1 c2 (rest ++ y) hc]
          rw [show c2 :: (rest ++ y) = (c2 :: rest) ++ y from rfl, ih, hp]
          simp
        rw [hy, hx]
        simp
    · have ih := scanCRLF_append rest y
      have hx := scanCRLF_cons2_pos c1 c2 rest hc
      have hy : scanCRLF ((c1 :: c2 :: rest) ++ y) =
          ([] :: (scanCRLF (rest ++ y)).1, (scanCRLF (rest ++ y)).2) := by
        rw [show (c1 :: c2 :: rest) ++ y = c1 :: c2 :: (rest ++ y) from rfl]
        exact scanCRLF_cons2_pos c1 c2 (rest ++ y) hc
      rw [hy, hx, ih]
      simp

theorem handleData_append (st : BufState) (a b : List Char) :
    handleData (handleData st a) b = handleData st (a ++ b) := by
  simp only [handleData]
  rw [show st.rawData ++ (a ++ b) = (st.rawData ++ a) ++ b from (List.append_assoc _ _ _).symm]
  rw [scanCRLF_append (st.rawData ++ a) b]
  simp [List.filter_append, List.append_assoc]

theorem handleData_chunks (st : BufState) :
    ∀ (a : List Char) (cs : List (List Char)),
      List.foldl handleData st (a :: cs) = handleData st (a :: cs).flatten := by
  intro a cs
  induction cs generalizing st a with
  | nil => simp
  | cons c cs ih =>
    have h1 : List.foldl handleData st (a :: c :: cs) =
        List.foldl handleData (handleData st a) (c :: cs) := rfl
    rw [h1, ih (handleData st a) c, handleData_append]
    simp

theorem probeLoop_none (env : Env1) (domain localPart : String) :
    ∀ (L : List MxRecord) (c : RespCache),
      (∀ mx c', mx ∈ L → (attemptMx env c' domain localPart mx).1 = none) →
      (probeLoop env domain localPart L c).1 = { smtp := false, catchall := false } := by
  intro L
  induction L with
  | nil => intro c _; rfl
  | cons mx rest ih =>
    intro c h
    have hmx := h mx c (List.mem_cons_self _ _)
    simp only [probeLoop]
    rw [hmx]
    exact ih _ (fun mx' c' hm => h mx' c' (List.mem_cons_of_mem _ hm))

theorem performLoop_any (env : Env2) (domain localPart : String) :
    ∀ L : List MxRecord,
      performLoop env domain localPart L = L.any (mxAccepted env domain localPart) := by
  intro L
  induction L with
  | nil => rfl
  | cons mx rest ih =>
    simp only [performLoop, List.any_cons, mxAccepted]
    cases h : (verifyWithServer env mx.exchange domain localPart).1 with
    | ok b =>
      cases b with
      | true => simp
      | false => simp [ih]
    | error e => simp [ih]

theorem tryPorts_spec (f : Nat → Bool) : ∀ L : List Nat,
    (tryPorts f L).1 = (match L.find? f with
       | some p => Except.ok p
       | none => Except.error "Failed to connect on any port") ∧
    (tryPorts f L).2 = (match L.find? f with
       | some p => L.takeWhile (fun q => !f q) ++ [p]
       | none => L) := by
  intro L
  induction L with
  | nil => exact ⟨rfl, rfl⟩
  | cons p ps ih =>
    cases hp : f p with
    | true => simp [tryPorts, hp, List.find?_cons, List.takeWhile_cons]
    | false =>
      cases hf : ps.find? f with
      | none =>
        simp [tryPorts, hp, List.find?_cons, List.takeWhile_cons, hf, ih.1, ih.2]
      | some q =>
        simp [tryPorts, hp, List.find?_cons, List.takeWhile_cons, hf, ih.1, ih.2]

theorem tlsStart_not_in_afterEhlo (s : ServerScript2) (localPart domain : String) :
    SmtpCmd.tlsStart ∉ (afterEhloStage s localPart domain).2 := by
  unfold afterEhloStage
  repeat' split
  all_goals simp

/-- C1.  The claim that the probe never throws is false for the cached
`isEmailValid`: `resolveMx` runs outside the try block, so its rejection
propagates to the caller.  This environment makes MX resolution reject,
and the call returns that very error. -/
theorem C1_counterexample :
    (isEmailValid c1Env [] "example.com" "bob").1 = Except.error "queryMx ENODATA" := by
  decide

/-- C1 (amended).  `performSmtpVerification` always returns a boolean to
its caller; `isEmailValid` rejects exactly when `resolveMx` rejects (and
the empty-argument guard did not fire); and when every MX host attempt
is caught without a decisive outcome — in particular when the MX list is
empty — the result is `{ smtp: false, catchall: false }`. -/
theorem C1_amended (env1 : Env1) (env2 : Env2) (cache : RespCache)
    (domain localPart : String) :
    (∃ b, performSmtpVerification env2 domain localPart = Except.ok b) ∧
    (∀ e, (isEmailValid env1 cache domain localPart).1 = Except.error e ↔
      (env1.resolveMxResult = Except.error e ∧ (localPart == "" || domain == "") = false)) ∧
    (∀ mxs, env1.resolveMxResult = Except.ok mxs →
      (∀ mx c, mx ∈ sortByPrio mxs → (attemptMx env1 c domain localPart mx).1 = none) →
      (isEmailValid env1 cache domain localPart).1 =
        Except.ok { smtp := false, catchall := false }) := by
  refine ⟨⟨_, rfl⟩, ?_, ?_⟩
  · intro e
    cases hg : (localPart == "" || domain == "") with
    | true => simp [isEmailValid, hg]
    | false =>
      cases hr : env1.resolveMxResult with
      | error e' => simp [isEmailValid, hg, hr]
      | ok mxs =>
        by_cases he : mxs.isEmpty = true <;> simp [isEmailValid, hg, hr, he]
  · intro mxs hmx hall
    cases hg : (localPart == "" || domain == "") with
    | true => simp [isEmailValid, hg]
    | false =>
      by_cases he : mxs.isEmpty = true
      · simp [isEmailValid, hg, hmx, he]
      · simp [isEmailValid, hg, hmx, he]
        exact probeLoop_none env1 domain localPart _ cache hall

/-- C1 (witness): with a successfully resolved empty MX list the probe
returns `{ smtp: false, catchall: false }`. -/
theorem C1_witness :
    (isEmailValid c1wEnv [] "example.com" "bob").1 =
      Except.ok { smtp := false, catchall := false } :=
  (C1_amended c1wEnv inertEnv2 [] "example.com" "bob").2.2 [] rfl
    (by intro mx c hm; simp [sortByPrio] at hm)

/-- C2.  The claim that a decisive 5xx RCPT reply terminates the probe
with `smtpValid = false` is refuted: the first MX host answers the RCPT
with 550, yet `performSmtpVerification` continues to the second host and
returns true when that host answers 250. -/
theorem C2_counterexample :
    performSmtpVerification c2Env "example.com" "bob" = Except.ok true := by
  decide

/-- C2 (amended).  Only a 250 on the real RCPT is decisive for the loop:
`performSmtpVerification` returns true exactly when some MX host (in
ascending-priority order) yields `Except.ok true` from `verifyWithServer`;
a 550 makes that host's verification return false but the loop continues,
and 4xx, unrecognized replies and transport errors reject and are
likewise skipped. -/
theorem C2_amended (env : Env2) (domain localPart : String) :
    performSmtpVerification env domain localPart =
      Except.ok
        (match env.resolveMxResult with
         | Except.error _ => false
         | Except.ok mxs => (sortByPrio mxs).any (mxAccepted env domain localPart)) := by
  unfold performSmtpVerification
  cases hr : env.resolveMxResult with
  | error e => rfl
  | ok mxs =>
    by_cases he : mxs.isEmpty = true
    · have hnil : mxs = [] := by
        cases mxs with
        | nil => rfl
        | cons a l => simp [List.isEmpty] at he
      subst hnil
      simp [sortByPrio]
    · simp [he, performLoop_any]

/-- C3.  The claim that every MX connection attempts ports 25, 587, 465
in order is refuted on the active prober: the host accepts connections
on port 587, yet `verifyWithServer` attempts only port 25 and the probe
fails over to exhaustion instead of connecting on 587. -/
theorem C3_counterexample :
    performSmtpVerification c3Env "example.com" "bob" = Except.ok false ∧
    (verifyWithServer c3Env "mx.example.com" "example.com" "bob").2.1 = [25] := by
  decide

/-- C3 (amended).  The cached prober's `createConnection` does try 25,
587, 465 in order — the first connectable port is used, failures advance,
exhaustion throws (skipping to the next MX) — but the active
`verifyWithServer` hard-codes a single attempt on port 25. -/
theorem C3_amended (f : Nat → Bool) (env : Env2) (mxHost domain localPart : String) :
    (createConnection f).1 = (match SMTP_PORTS.find? f with
       | some p => Except.ok p
       | none => Except.error "Failed to connect on any port") ∧
    (createConnection f).2 = (match SMTP_PORTS.find? f with
       | some p => SMTP_PORTS.takeWhile (fun q => !f q) ++ [p]
       | none => SMTP_PORTS) ∧
    (verifyWithServer env mxHost domain localPart).2.1 = [25] := by
  refine ⟨(tryPorts_spec f SMTP_PORTS).1, (tryPorts_spec f SMTP_PORTS).2, ?_⟩
  unfold verifyWithServer
  by_cases h : env.connects mxHost 25 = true <;> simp [h]

/-- C4.  A fresh cache hit behaves as specified: a `catch-all` value
returns `{ smtp: true, catchall: true }` before any connection or RCPT;
a raw-text value skips the dummy probe, leaves the cache unchanged, and
decides the real RCPT by text comparison with the cached reply. -/
theorem C4_holds (env : Env1) (cache : RespCache) (domain localPart : String)
    (mx : MxRecord) (e : CacheEntry) (p : Nat)
    (he : cacheGet cache (cacheKey domain mx.exchange) = some e)
    (hfresh : isFresh env.now e = true) :
    (e.response = "catch-all" →
      attemptMx env cache domain localPart mx =
        (some { smtp := true, catchall := true }, cache, [])) ∧
    (e.response ≠ "catch-all" →
      (createConnection (env.script mx.exchange).connectOk).1 = Except.ok p →
      preRcpt (env.script mx.exchange) = Except.ok () →
      ((attemptMx env cache domain localPart mx).2.1 = cache ∧
       (∀ a, Probe1Eff.dummyRcpt a ∉ (attemptMx env cache domain localPart mx).2.2) ∧
       (∀ r, readResponse (env.script mx.exchange).realRcptReply = Except.ok r →
         (attemptMx env cache domain localPart mx).1 =
           some { smtp := r.message != e.response, catchall := false }))) := by
  constructor
  · intro hca
    simp [attemptMx, he, hfresh, hca]
  · intro hne hconn hpre
    have hbeq : (e.response == "catch-all") = false := beq_eq_false_iff_ne.mpr hne
    simp only [attemptMx, he, hbeq, Bool.and_false, Bool.false_eq_true, if_false,
      conversation, hpre, hconn]
    cases hr : readResponse (env.script mx.exchange).realRcptReply with
    | error er =>
      refine ⟨?_, ?_, ?_⟩
      · simp [stage4, hr]
      · intro a
        simp [stage4, hr, List.mem_map]
      · intro r hrr
        simp [hr] at hrr
    | ok r =>
      refine ⟨?_, ?_, ?_⟩
      · simp [stage4, hr, hbeq]
      · intro a
        simp [stage4, hr, hbeq, List.mem_map]
      · intro r' hrr
        injection hrr with h2
        subst h2
        simp [stage4, hr, hbeq]

/-- C4 (witness): a fresh `catch-all` cache hit short-circuits with
`{ smtp: true, catchall: true }` and an empty effect trace. -/
theorem C4_witness :
    attemptMx c4wEnv c4wCache "example.com" "bob" { exchange := "mx.example.com", priority := 10 } =
      (some { smtp := true, catchall := true }, c4wCache, []) :=
  (C4_holds c4wEnv c4wCache "example.com" "bob" { exchange := "mx.example.com", priority := 10 }
    { response := "catch-all", timestamp := 500 } 0 (by decide) (by decide)).1 rfl

/-- C5.  The code does not treat an expired cache entry as a miss.  The
entry below is two hours old (TTL is one hour); the claim requires the
dummy RCPT `gibberishasdfasdf@example.com` to be sent and the cache to
be repopulated.  Instead the run shows: no dummy RCPT in the trace, the
cache returned unchanged, and the stale text used for the comparison —
the freshness test guards only the catch-all short-circuit, while the
dummy-probe guard `if (!cached)` and the final comparison use the entry
regardless of age. -/
theorem C5_behavior :
    isEmailValid c5Env c5Cache "example.com" "bob" =
      (Except.ok { smtp := false, catchall := false }, c5Cache,
       [Probe1Eff.dnsMx, Probe1Eff.connTry "mx.example.com" 25,
        Probe1Eff.realRcpt "bob@example.com"]) := by
  decide

/-- C6.  The claim that a Catch-All verdict implies a successful SMTP
check is refuted: this domain's MX rejects `bob` with 550 but accepts
the random local part, so the pipeline reports `catchAll = true` with
`smtpValid = false`, which the spec derivation maps to Catch-All. -/
theorem C6_counterexample :
    emailStatusOf (verifyEmail c6Env "bob@corp.example").1 = EmailStatus.statusCatchAll ∧
    (verifyEmail c6Env "bob@corp.example").1.checks.smtpValid = false := by
  decide

/-- C6 (amended).  A Catch-All status does imply `catchAll = true`, but
not `smtpValid = true`: the active pipeline computes the catch-all flag
by an independent random-local-part probe even when the real-address
SMTP check failed. -/
theorem C6_amended (env : PipeEnv) (email : String)
    (h : emailStatusOf (verifyEmail env email).1 = EmailStatus.statusCatchAll) :
    (verifyEmail env email).1.checks.catchAll = true := by
  by_cases hca : (verifyEmail env email).1.checks.catchAll = true
  · exact hca
  · exfalso
    have hf : (verifyEmail env email).1.checks.catchAll = false := by
      cases hb : (verifyEmail env email).1.checks.catchAll with
      | false => rfl
      | true => exact absurd hb hca
    unfold emailStatusOf at h
    rw [hf] at h
    split at h
    · cases h
    · split at h
      · cases h
      · split at h
        · cases h
        · split at h
          · cases h
          · simp at h
            split at h <;> cases h

/-- C6 (witness): the amended implication evaluated on the concrete
environment of the counterexample. -/
theorem C6_witness :
    (verifyEmail c6Env "bob@corp.example").1.checks.catchAll = true :=
  C6_amended c6Env "bob@corp.example" (by decide)

/-- C7.  The claim that STARTTLS on any continuation line triggers the
upgrade is refuted: here STARTTLS is advertised on the first
(continuation) line of the 250 reply, which `sendCommand` consumes as
the command's response, so the capability scan over the remaining queue
misses it and no STARTTLS command is ever written. -/
theorem C7_counterexample :
    SmtpCmd.tlsStart ∉ (verifyConv c7Script "bob" "example.com").2 := by
  decide

/-- C7 (amended).  In a session that reaches the capability check (220
greeting, first EHLO line mentioning 250), the STARTTLS command is sent
if and only if some line after the first line of the EHLO reply contains
STARTTLS: the first line is consumed as the command's response and never
scanned. -/
theorem C7_amended (s : ServerScript2) (localPart domain g e1 : String)
    (gs rest : List String)
    (hg : s.greeting = g :: gs) (h220 : jsStartsWith g "220" = true)
    (he : s.ehlo1 = e1 :: rest) (h250 : jsIncludes e1 "250" = true) :
    (SmtpCmd.tlsStart ∈ (verifyConv s localPart domain).2) ↔
      rest.any (fun l => jsIncludes l "STARTTLS") = true := by
  unfold verifyConv
  rw [hg, he]
  simp only [firstLine, h220, h250, Bool.not_true, Bool.false_eq_true, if_false,
    List.drop_succ_cons, List.drop_zero]
  cases hsup : rest.any (fun l => jsIncludes l "STARTTLS") with
  | false =>
    simp [hsup, tlsStart_not_in_afterEhlo]
  | true =>
    simp only [hsup, if_true]
    refine ⟨fun _ => by trivial, fun _ => ?_⟩
    split
    · simp
    · split
      · split
        · simp
        · simp
      · simp

/-- C7 (witness): STARTTLS on the second line of the EHLO reply does
trigger the STARTTLS command. -/
theorem C7_witness :
    SmtpCmd.tlsStart ∈ (verifyConv c7wScript "bob" "example.com").2 :=
  (C7_amended c7wScript "bob" "example.com" "220 mx" "250-corp" []
    ["250-STARTTLS", "250 HELP"] rfl (by decide) rfl (by decide)).mpr (by decide)

/-- C8.  The claim that chunking-insensitivity holds after the TLS
upgrade is refuted: the post-upgrade handler keeps no carry buffer, so
the stream `"250 OK\r\n"` delivered as two chunks split inside the line
parses as two lines, unlike the whole stream. -/
theorem C8_counterexample :
    List.foldl handleDataTLS [] [['2', '5', '0', ' ', 'O'], ['K', '\r', '\n']] ≠
      List.foldl handleDataTLS [] [['2', '5', '0', ' ', 'O', 'K', '\r', '\n']] := by
  decide

/-- C8 (amended).  Before the TLS upgrade the parser is insensitive to
transport chunking: feeding any chunking of a byte stream to
`handleData` produces exactly the state produced by feeding the stream
whole — splits inside a line or between CR and LF included.  After the
upgrade the handler splits each chunk independently (see the
counterexample). -/
theorem C8_amended (cs : List (List Char)) :
    List.foldl handleData startBuf cs = handleData startBuf cs.flatten := by
  cases cs with
  | nil => rfl
  | cons a rest => exact handleData_chunks startBuf a rest

/-- C9.  An input rejected by the format validator short-circuits the
pipeline: the network-effect trace is empty, the format flag is false,
the reason is `Invalid email format`, and the scored result is invalid. -/
theorem C9_holds (env : PipeEnv) (email : String) (h : isValidFormat email = false) :
    (verifyEmail env email).2 = [] ∧
    (verifyEmail env email).1.checks.formatValid = false ∧
    (verifyEmail env email).1.reason = some "Invalid email format" ∧
    (verifyEmail env email).1.isValid = false := by
  unfold verifyEmail
  simp [h, calculateScore, emptyResult]

/-- C9 (witness): the format-invalid path evaluated on a concrete input. -/
theorem C9_witness :
    (verifyEmail c9Env "not-an-email").2 = [] ∧
    (verifyEmail c9Env "not-an-email").1.checks.formatValid = false ∧
    (verifyEmail c9Env "not-an-email").1.reason = some "Invalid email format" ∧
    (verifyEmail c9Env "not-an-email").1.isValid = false :=
  C9_holds c9Env "not-an-email" (by decide)

/-- C10.  An empty local part or empty domain makes `isEmailValid`
return `{ smtp: false, catchall: false }` immediately, with an empty
effect trace: no MX lookup and no connection is attempted. -/
theorem C10_holds (env : Env1) (cache : RespCache) (domain localPart : String)
    (h : localPart = "" ∨ domain = "") :
    isEmailValid env cache domain localPart =
      (Except.ok { smtp := false, catchall := false }, cache, []) := by
  unfold isEmailValid
  rcases h with h | h <;> subst h <;> simp

/-- C10 (witness): the empty-local-part guard evaluated concretely. -/
theorem C10_witness :
    isEmailValid c10Env [] "example.com" "" =
      (Except.ok { smtp := false, catchall := false }, [], []) :=
  C10_holds c10Env [] "example.com" "" (Or.inl rfl)
